import Mathlib

/-!
Shallow embedding of ds4drv (a DualShock 4 bluetooth driver) for checking
its natural-language specification.  Every definition below transcribes the
corresponding Python construct from `ds4drv.py`; bytes are modelled as `Nat`
(< 256 where it matters), signed 16-bit wire values as `Int`, and wall-clock
time as `Int` seconds (one `time()` sample per loop iteration).
-/

namespace Ds4drv

/-! ## Protocol constants (ds4drv.py lines 18-26) -/

def L2CAP_PSM_HIDP_CTRL : Nat := 0x11

def L2CAP_PSM_HIDP_INTR : Nat := 0x13

def HIDP_TRANS_SET_REPORT : Nat := 0x50

def HIDP_DATA_RTYPE_OUTPUT : Nat := 0x02

/-! ## Report decoding (DS4Report namedtuple and DS4Device.read_report) -/

/-- `Struct("<h").unpack`: two bytes as a signed little-endian 16-bit value. -/
def s16le (b0 b1 : Nat) : Int :=
  let v : Int := (b0 : Int) + 256 * (b1 : Int)
  if v < 32768 then v else v - 65536

/-- The `DS4Report` namedtuple, fields in source order. -/
structure DS4Report where
  left_analog_x : Nat
  left_analog_y : Nat
  right_analog_x : Nat
  right_analog_y : Nat
  l2_analog : Nat
  r2_analog : Nat
  dpad_up : Bool
  dpad_down : Bool
  dpad_left : Bool
  dpad_right : Bool
  button_cross : Bool
  button_circle : Bool
  button_square : Bool
  button_triangle : Bool
  button_l1 : Bool
  button_l2 : Bool
  button_l3 : Bool
  button_r1 : Bool
  button_r2 : Bool
  button_r3 : Bool
  button_share : Bool
  button_options : Bool
  button_trackpad : Bool
  button_ps : Bool
  motion_y : Int
  motion_x : Int
  motion_z : Int
  orientation_roll : Int
  orientation_yaw : Int
  orientation_pitch : Int
  trackpad_touch0_id : Nat
  trackpad_touch0_active : Bool
  trackpad_touch0_x : Nat
  trackpad_touch0_y : Nat
  trackpad_touch1_id : Nat
  trackpad_touch1_active : Bool
  trackpad_touch1_x : Nat
  trackpad_touch1_y : Nat
  timestamp : Nat
  battery : Nat
  charging : Bool
deriving DecidableEq

/-- The `DS4Report(...)` construction inside `DS4Device.read_report`
    (ds4drv.py lines 363-417), for a full 79-byte buffer `buf`. -/
def read_report_decode (buf : Nat → Nat) : DS4Report where
  left_analog_x := buf 4
  left_analog_y := buf 5
  right_analog_x := buf 6
  right_analog_y := buf 7
  l2_analog := buf 11
  r2_analog := buf 12
  dpad_up := decide (buf 8 = 0 ∨ buf 8 = 1 ∨ buf 8 = 7)
  dpad_down := decide (buf 8 = 3 ∨ buf 8 = 4 ∨ buf 8 = 5)
  dpad_left := decide (buf 8 = 5 ∨ buf 8 = 6 ∨ buf 8 = 7)
  dpad_right := decide (buf 8 = 1 ∨ buf 8 = 2 ∨ buf 8 = 3)
  button_cross := decide (buf 8 &&& 32 ≠ 0)
  button_circle := decide (buf 8 &&& 64 ≠ 0)
  button_square := decide (buf 8 &&& 16 ≠ 0)
  button_triangle := decide (buf 8 &&& 128 ≠ 0)
  button_l1 := decide (buf 9 &&& 0x01 ≠ 0)
  button_l2 := decide (buf 9 &&& 0x04 ≠ 0)
  button_l3 := decide (buf 9 &&& 0x40 ≠ 0)
  button_r1 := decide (buf 9 &&& 0x02 ≠ 0)
  button_r2 := decide (buf 9 &&& 0x08 ≠ 0)
  button_r3 := decide (buf 9 &&& 0x80 ≠ 0)
  button_share := decide (buf 9 &&& 0x10 ≠ 0)
  button_options := decide (buf 9 &&& 0x20 ≠ 0)
  button_trackpad := decide (buf 10 &&& 2 ≠ 0)
  button_ps := decide (buf 10 &&& 1 ≠ 0)
  motion_y := s16le (buf 16) (buf 17)
  motion_x := s16le (buf 18) (buf 19)
  motion_z := s16le (buf 20) (buf 21)
  orientation_roll := -(s16le (buf 22) (buf 23))
  orientation_yaw := s16le (buf 24) (buf 25)
  orientation_pitch := s16le (buf 26) (buf 27)
  trackpad_touch0_id := buf 38 &&& 0x7f
  trackpad_touch0_active := decide (buf 38 >>> 7 = 0)
  trackpad_touch0_x := ((buf 40 &&& 0x0f) <<< 8) ||| buf 39
  trackpad_touch0_y := (buf 41 <<< 4) ||| ((buf 40 &&& 0xf0) >>> 4)
  trackpad_touch1_id := buf 42 &&& 0x7f
  trackpad_touch1_active := decide (buf 42 >>> 7 = 0)
  trackpad_touch1_x := ((buf 44 &&& 0x0f) <<< 8) ||| buf 43
  trackpad_touch1_y := (buf 45 <<< 4) ||| ((buf 44 &&& 0xf0) >>> 4)
  timestamp := buf 10 >>> 2
  battery := buf 33 % 0x10
  charging := decide (buf 33 &&& 0x10 ≠ 0)

/-- Result of one `DS4Device.read_report` call: `None` (disconnection),
    `False` (invalid report size, ignored), or a decoded report. -/
inductive ReadResult where
  | endOfStream : ReadResult
  | shortReport : ReadResult
  | report (r : DS4Report) : ReadResult
deriving DecidableEq

/-- `DS4Device.read_report` (ds4drv.py lines 350-417): `ret` is the number of
    bytes `recv_into` placed in the 79-byte buffer. -/
def read_report (ret : Nat) (buf : Nat → Nat) : ReadResult :=
  if ret = 0 then .endOfStream
  else if ret < 79 then .shortReport
  else .report (read_report_decode buf)

/-- The `DS4Device.reports` generator (ds4drv.py lines 419-430) over a finite
    script of receive events, each a bytes-read count plus the buffer contents:
    breaks on `None`, yields decoded reports, and only logs on `False`. -/
def reports : List (Nat × (Nat → Nat)) → List DS4Report
  | [] => []
  | (ret, buf) :: rest =>
    match read_report ret buf with
    | .endOfStream => []
    | .shortReport => reports rest
    | .report r => r :: reports rest

/-! ## Control packet encoding (DS4Device.control, ds4drv.py lines 324-348) -/

/-- The keyword arguments of `DS4Device.control`, all defaulting to 0. -/
structure ControlArgs where
  big_rumble : Nat := 0
  small_rumble : Nat := 0
  led_red : Nat := 0
  led_green : Nat := 0
  led_blue : Nat := 0
  flash_led1 : Nat := 0
  flash_led2 : Nat := 0
deriving DecidableEq

/-- The 78-byte payload `pkt`: a zero bytearray with the indexed assignments
    of `DS4Device.control` applied in source order. -/
def control_pkt (a : ControlArgs) : List Nat :=
  ((((((((((List.replicate 78 0).set 0 0x11).set 1 128).set 3 255).set
      6 a.big_rumble).set 7 a.small_rumble).set 8 a.led_red).set
      9 a.led_green).set 10 a.led_blue).set 11 a.flash_led1).set
      12 a.flash_led2

/-- `bytes(hid + pkt)`: the single byte string handed to `sendall`. -/
def control_bytes (a : ControlArgs) : List Nat :=
  (HIDP_TRANS_SET_REPORT ||| HIDP_DATA_RTYPE_OUTPUT) :: control_pkt a

/-- `DS4Device.control` performs exactly one `sendall` call. -/
def control_sends (a : ControlArgs) : List (List Nat) :=
  [control_bytes a]

/-! ## LED battery-flash policy (read_device, ds4drv.py lines 532-557)

Wall-clock time is modelled as one `Int`-valued `time()` sample per loop
iteration; each scripted report carries (battery, charging, time). -/

/-- The two local variables of `read_device`. -/
structure LedState where
  led_last_flash : Int
  led_flashing : Bool
deriving DecidableEq

/-- `device.control(led_red=.., led_green=.., led_blue=..)`. -/
def steadyCmd (led : Nat × Nat × Nat) : ControlArgs :=
  { led_red := led.1, led_green := led.2.1, led_blue := led.2.2 }

/-- `device.control(led_red=.., led_green=.., led_blue=.., flash_led1=30,
    flash_led2=30)`. -/
def flashCmd (led : Nat × Nat × Nat) : ControlArgs :=
  { led_red := led.1, led_green := led.2.1, led_blue := led.2.2,
    flash_led1 := 30, flash_led2 := 30 }

/-- `device.control(flash_led1=0, flash_led2=0)`: every argument is 0. -/
def clearFlashCmd : ControlArgs := {}

/-- One iteration of the `for report in device.reports` body of
    `read_device` (minus the `joypad.emit`): returns the updated state and
    the control commands sent, in order. -/
def read_device_step (battery_flash : Bool) (led : Nat × Nat × Nat)
    (st : LedState) (battery : Nat) (charging : Bool) (t : Int) :
    LedState × List ControlArgs :=
  if battery_flash then
    let p1 :=
      if battery < 2 ∧ charging = false then
        if st.led_flashing = false ∧ t - st.led_last_flash > 60 then
          (LedState.mk t true, [flashCmd led])
        else (st, ([] : List ControlArgs))
      else (st, ([] : List ControlArgs))
    let p2 :=
      if p1.1.led_flashing = true ∧ t - p1.1.led_last_flash > 5 then
        (LedState.mk p1.1.led_last_flash false, [clearFlashCmd, steadyCmd led])
      else (p1.1, ([] : List ControlArgs))
    (p2.1, p1.2 ++ p2.2)
  else (st, [])

/-- `led_last_flash = time(); led_flashing = True` at the top of
    `read_device`, with `t0` the session-start time. -/
def read_device_init_state (t0 : Int) : LedState :=
  { led_last_flash := t0, led_flashing := true }

/-- The report loop of `read_device` over a scripted report sequence:
    all control commands sent from inside the loop, in order. -/
def read_device_loop (battery_flash : Bool) (led : Nat × Nat × Nat) :
    LedState → List (Nat × Bool × Int) → List ControlArgs
  | _, [] => []
  | st, (b, ch, t) :: rest =>
    let p := read_device_step battery_flash led st b ch t
    p.2 ++ read_device_loop battery_flash led p.1 rest

/-- All control commands `read_device` sends for a scripted report sequence:
    the initial steady profile-color command, then the loop's commands. -/
def read_device_cmds (battery_flash : Bool) (led : Nat × Nat × Nat)
    (t0 : Int) (reps : List (Nat × Bool × Int)) : List ControlArgs :=
  steadyCmd led :: read_device_loop battery_flash led (read_device_init_state t0) reps

/-! ## Discovery loop (bluetooth_scan / find_device / find_devices,
ds4drv.py lines 499-529)

`bluetooth_scan` keeps the raw `subprocess.check_output` bytes and splits
each line on `b"\x09"`, so every `(bdaddr, name)` pair it returns consists
of `bytes` values, while `find_device` compares `name` against the `str`
literal "Wireless Controller".  The code requires Python 3 (it uses
`socket.AF_BLUETOOTH`), and in Python 3 a `bytes` value never compares
equal to a `str` value, so the model distinguishes the two kinds.  A
failing `DS4Device.connect` would raise an `OSError` reaching the same
`except OSError` clause of `find_devices` as a missing `hcitool`; that
branch is transcribed below even though the always-false name filter makes
it unreachable. -/

/-- A Python 3 string-like value: a text string or a byte string. -/
inductive PyStrVal where
  | pstr (s : String) : PyStrVal
  | pbytes (s : String) : PyStrVal
deriving DecidableEq

/-- Python 3 `==` on str/bytes values: equal kind and equal content; a
    `bytes` value never compares equal to a `str` value (no error, just
    `False`). -/
def pyEq : PyStrVal → PyStrVal → Bool
  | .pstr a, .pstr b => a == b
  | .pbytes a, .pbytes b => a == b
  | _, _ => false

/-- Outcome of `bluetooth_scan`: a device list of `(bdaddr, name)` byte
    strings, or one of the two exceptions it can raise
    (`subprocess.CalledProcessError` from a non-zero exit, `OSError` when
    the executable is missing). -/
inductive ScanResult where
  | ok (devs : List (String × String)) : ScanResult
  | calledProcessError : ScanResult
  | osError : ScanResult

/-- Outcome of `DS4Device.connect(addr)`: a handle, or an `OSError`
    (every Python 3 socket/connection failure is an `OSError`). -/
inductive ConnectResult where
  | ok : ConnectResult
  | osError : ConnectResult
deriving DecidableEq

/-- Which `Daemon.exit` message terminated the process. -/
inductive ExitReason where
  | scanReturnedError : ExitReason
  | hcitoolNotFound : ExitReason
deriving DecidableEq

/-- Outcome of one iteration of the `while True` loop in `find_devices`. -/
inductive CycleOutcome where
  | yielded : CycleOutcome
  | skipped : CycleOutcome
  | exited (r : ExitReason) : CycleOutcome
deriving DecidableEq

/-- One cycle of `find_devices`, given the scan outcome and the outcome of a
    connect attempt per address: `find_device` returns the connect of the
    first device whose `bytes` name equals the `str` literal
    "Wireless Controller" (or `None` when no name matches — in Python 3
    that comparison is always `False`); exceptions from either call hit the
    two `except` clauses. -/
def findDevicesCycle (scan : ScanResult)
    (connect : String → ConnectResult) : CycleOutcome :=
  match scan with
  | .calledProcessError => .exited .scanReturnedError
  | .osError => .exited .hcitoolNotFound
  | .ok devs =>
    match devs.find?
        (fun d => pyEq (.pbytes d.2) (.pstr "Wireless Controller")) with
    | none => .skipped
    | some d =>
      match connect d.1 with
      | .ok => .yielded
      | .osError => .exited .hcitoolNotFound

/-! ## Controller supervisor (main, ds4drv.py lines 574-600) -/

/-- One thread in `threads`, with the ad hoc attributes `main` attaches;
    `joypad` and `options` are identifiers of the sink and profile. -/
structure Worker where
  alive : Bool
  dynamic : Bool
  joypad : Nat
  options : Nat
deriving DecidableEq

/-- CPython list-iterator semantics of `for thread in threads` with
    `threads.remove(thread)` in the body: the iterator fetches index `j` of
    the current list and advances, so removing the current element shifts
    the list and the old element `j+1` is never fetched.  `fuel` only bounds
    the recursion; `threads.length + 1` always suffices because `j` grows by
    one per iteration and the list never grows. -/
def sweepAux : Nat → List Worker → List (Nat × Nat) → Nat →
    List Worker × List (Nat × Nat)
  | 0, threads, joypads, _ => (threads, joypads)
  | fuel + 1, threads, joypads, j =>
    match threads[j]? with
    | none => (threads, joypads)
    | some t =>
      if t.alive then sweepAux fuel threads joypads (j + 1)
      else
        let joypads' :=
          if t.dynamic then joypads else (t.joypad, t.options) :: joypads
        sweepAux fuel (threads.eraseIdx j) joypads' (j + 1)

/-- The reclaim sweep at the top of `main`'s per-device loop: returns the
    surviving `threads` list and the updated `joypads` queue
    (`joypads.insert(0, ...)` is a cons). -/
def sweepThreads (threads : List Worker) (joypads : List (Nat × Nat)) :
    List Worker × List (Nat × Nat) :=
  sweepAux (threads.length + 1) threads joypads 0

/-- The profile-assignment step of `main`: pop the front of `joypads`, or
    synthesize a fresh dynamic joypad/profile (`none`) when it is empty.
    Returns ((assigned pair or fresh, dynamic flag), remaining queue). -/
def assignController (joypads : List (Nat × Nat)) :
    (Option (Nat × Nat) × Bool) × List (Nat × Nat) :=
  match joypads with
  | [] => ((none, true), [])
  | jp :: rest => ((some jp, false), rest)

/-! ## Touch-point packing (the nibble-sharing wire scheme of §3/§8) -/

/-- Modelled from the spec wording of the nibble-sharing scheme: a 79-byte
    buffer holding touch point 0 with id byte `idb`, 12-bit `x` and `y`:
    low byte of x at 39; shared byte at 40 with the high nibble of x in its
    low nibble and the low nibble of y in its high nibble; high byte of y
    at 41.  All other bytes zero. -/
def packTouchBuf (idb x y : Nat) : Nat → Nat := fun i =>
  if i = 38 then idb
  else if i = 39 then x % 256
  else if i = 40 then x / 256 + (y % 16) * 16
  else if i = 41 then y / 16
  else 0

/-! ## Helper lemmas -/

set_option maxRecDepth 4000

/-- `control_pkt` written out positionally. -/
theorem control_pkt_eq (a : ControlArgs) :
    control_pkt a =
      [0x11, 128, 0, 255, 0, 0, a.big_rumble, a.small_rumble, a.led_red,
       a.led_green, a.led_blue, a.flash_led1, a.flash_led2] ++
        List.replicate 65 0 := rfl

theorem nat_nibble_lor_low : ∀ a < 16, ∀ c < 16, (a + c * 16) &&& 15 = a := by
  decide

theorem nat_nibble_lor_high :
    ∀ a < 16, ∀ c < 16, ((a + c * 16) &&& 240) >>> 4 = c := by decide

theorem nat_shl8_lor : ∀ a < 16, ∀ b < 256, (a <<< 8) ||| b = a * 256 + b := by
  decide

theorem nat_shl4_lor : ∀ a < 256, ∀ b < 16, (a <<< 4) ||| b = a * 16 + b := by
  decide

theorem nat_and_127 : ∀ b < 256, b &&& 127 = b % 128 := by decide

theorem nat_shr7_eq :
    ∀ b < 256, (decide (b >>> 7 = 0)) = (decide (b / 128 = 0)) := by decide

/-! ## Claims -/

/-- Claim C1: a connect failure to a discovered candidate never terminates
the process, and a cycle in which connect raises yields no handle and the
loop repeats — vacuously so, because `bluetooth_scan` returns `bytes`
names that `find_device` compares to a `str` literal (always `False` in
Python 3), so `DS4Device.connect` is never invoked: every
successful-scan cycle skips, whatever the connect outcomes would be, and
the process exits only on the two provider failures. -/
theorem find_devices_connect_transient :
    (∀ (devs : List (String × String)) (connect : String → ConnectResult),
      findDevicesCycle (.ok devs) connect = .skipped) ∧
    (∀ (scan : ScanResult) (connect : String → ConnectResult)
      (r : ExitReason), findDevicesCycle scan connect = .exited r →
        scan = .calledProcessError ∨ scan = .osError) ∧
    findDevicesCycle .calledProcessError (fun _ => .ok)
      = .exited .scanReturnedError ∧
    findDevicesCycle .osError (fun _ => .ok) = .exited .hcitoolNotFound := by
  have hfind : ∀ devs : List (String × String),
      devs.find?
        (fun d => pyEq (.pbytes d.2) (.pstr "Wireless Controller"))
        = none := by
    intro devs
    rw [List.find?_eq_none]
    intro d hd
    simp [pyEq]
  have hskip : ∀ (devs : List (String × String))
      (connect : String → ConnectResult),
      findDevicesCycle (.ok devs) connect = .skipped := by
    intro devs connect
    show (match devs.find?
        (fun d => pyEq (.pbytes d.2) (.pstr "Wireless Controller")) with
      | none => CycleOutcome.skipped
      | some d =>
        match connect d.1 with
        | .ok => CycleOutcome.yielded
        | .osError => CycleOutcome.exited .hcitoolNotFound)
      = CycleOutcome.skipped
    rw [hfind]
  refine ⟨hskip, ?_, rfl, rfl⟩
  intro scan connect r h
  cases scan with
  | ok devs =>
    rw [hskip devs connect] at h
    cases h
  | calledProcessError => exact Or.inl rfl
  | osError => exact Or.inr rfl

/-- Witness for claim C1 at concrete inputs: even with a device whose byte
name spells "Wireless Controller" and a connect that would raise, the
cycle skips; and an exiting cycle comes from a provider failure. -/
theorem find_devices_connect_transient_witness :
    findDevicesCycle (.ok [("AA", "Wireless Controller")])
      (fun _ => .osError) = .skipped ∧
    (ScanResult.calledProcessError = ScanResult.calledProcessError ∨
      ScanResult.calledProcessError = ScanResult.osError) := by
  have h := find_devices_connect_transient
  exact ⟨h.1 [("AA", "Wireless Controller")] (fun _ => .osError),
    h.2.1 .calledProcessError (fun _ => .ok) .scanReturnedError rfl⟩

/-- Claim C2 (counterexample): the worker starts with `led_flashing = True`
(the flashing state, not steady); a first report with battery=1, not
charging, one second after start sends no control command at all (no
steady→flashing transition); and a single report with battery=15,
charging=true arriving ten seconds after start makes the worker send the
flash-disable command `control(flash_led1=0, flash_led2=0)` and re-send
the steady color even though no low-battery report ever arrived. -/
theorem read_device_led_counterexample :
    (read_device_init_state 0).led_flashing = true ∧
    read_device_loop true (0, 0, 255) (read_device_init_state 0)
      [(1, false, 1)] = [] ∧
    read_device_loop true (0, 0, 255) (read_device_init_state 0)
      [(15, true, 10)] = [clearFlashCmd, steadyCmd (0, 0, 255)] ∧
    ([clearFlashCmd, steadyCmd (0, 0, 255)] : List ControlArgs) ≠ [] := by
  decide

/-- Claim C2 (amended): the per-worker LED state machine starts with the
flashing flag set and the flash timer at session start; with battery-flash
enabled, a single report arriving at most 5 seconds after start emits no
loop command whatever its battery; a low-battery (battery<2, not charging)
report transitions to flashing — sending the flash-enabling command — only
from a state with the flag clear and more than 60 seconds since the
recorded flash time; and while the flag is set, any report more than 5
seconds after the recorded flash time triggers the flash-disable plus
steady-color commands and clears the flag, regardless of battery. -/
theorem read_device_led_policy_amended (led : Nat × Nat × Nat) (t0 : Int)
    (st : LedState) (b : Nat) (ch : Bool) (t : Int) :
    (read_device_init_state t0).led_flashing = true ∧
    (t - t0 ≤ 5 →
      read_device_loop true led (read_device_init_state t0) [(b, ch, t)]
        = []) ∧
    (st.led_flashing = false → b < 2 → ch = false →
      t - st.led_last_flash > 60 →
      read_device_step true led st b ch t
        = (LedState.mk t true, [flashCmd led])) ∧
    (st.led_flashing = true → t - st.led_last_flash > 5 →
      read_device_step true led st b ch t
        = (LedState.mk st.led_last_flash false,
           [clearFlashCmd, steadyCmd led])) := by
  refine ⟨rfl, ?_, ?_, ?_⟩
  · intro ht
    simp only [read_device_loop, read_device_step, read_device_init_state]
    split_ifs <;> simp_all <;> omega
  · intro hf hb hch hgt
    simp only [read_device_step]
    split_ifs <;> simp_all
  · intro hf hgt
    simp only [read_device_step]
    split_ifs <;> simp_all

/-- Witness for the amended claim C2 at concrete inputs. -/
theorem read_device_led_policy_amended_witness :
    read_device_loop true (0, 0, 255) (read_device_init_state 0)
      [(15, true, 3)] = [] ∧
    read_device_step true (0, 0, 255) (LedState.mk 0 false) 1 false 100
      = (LedState.mk 100 true, [flashCmd (0, 0, 255)]) ∧
    read_device_step true (0, 0, 255) (LedState.mk 0 true) 15 true 100
      = (LedState.mk 0 false, [clearFlashCmd, steadyCmd (0, 0, 255)]) := by
  have h1 := read_device_led_policy_amended (0, 0, 255) 0
    (LedState.mk 0 true) 15 true 3
  have h2 := read_device_led_policy_amended (0, 0, 255) 0
    (LedState.mk 0 false) 1 false 100
  have h3 := read_device_led_policy_amended (0, 0, 255) 0
    (LedState.mk 0 true) 15 true 100
  exact ⟨h1.2.1 (by decide), h2.2.2.1 rfl (by decide) rfl (by decide),
    h3.2.2.2 rfl (by decide)⟩

/-- Claim C3 (code_bug evaluation): the dpad flags are computed from the
whole byte `buf[8]`, which also packs the cross/circle/square/triangle
button bits in its high nibble.  For a buffer with `buf[8] = 0x10`
(hat nibble 0 — up — with the square-button bit set) the code yields
`dpad_up = false` while recognising the square press; with the byte equal
to the bare nibble 0 it yields `dpad_up = true` as documented. -/
theorem read_report_dpad_whole_byte :
    (read_report_decode (fun i => if i = 8 then 16 else 0)).dpad_up
      = false ∧
    (read_report_decode (fun i => if i = 8 then 16 else 0)).dpad_down
      = false ∧
    (read_report_decode (fun i => if i = 8 then 16 else 0)).dpad_left
      = false ∧
    (read_report_decode (fun i => if i = 8 then 16 else 0)).dpad_right
      = false ∧
    (read_report_decode (fun i => if i = 8 then 16 else 0)).button_square
      = true ∧
    16 % 16 = 0 ∧
    (read_report_decode (fun _ => 0)).dpad_up = true := by decide

/-- Claim C4: a bytes-read count of zero yields `EndOfStream` and
terminates the report stream; a positive count below 79 yields the ignored
short report, which the stream swallows (no item yielded, iteration
continues); and a decoded report is produced only when at least 79 bytes
were read, in which case it is exactly the decoding of the buffer. -/
theorem read_report_stream_classification (ret : Nat) (buf : Nat → Nat)
    (rest : List (Nat × (Nat → Nat))) :
    (ret = 0 → read_report ret buf = .endOfStream ∧
      reports ((ret, buf) :: rest) = []) ∧
    (0 < ret → ret < 79 → read_report ret buf = .shortReport ∧
      reports ((ret, buf) :: rest) = reports rest) ∧
    (∀ r, read_report ret buf = .report r →
      79 ≤ ret ∧ r = read_report_decode buf) := by
  refine ⟨?_, ?_, ?_⟩
  · intro h
    subst h
    exact ⟨rfl, rfl⟩
  · intro h1 h2
    have he : read_report ret buf = .shortReport := by
      unfold read_report
      rw [if_neg (by omega), if_pos h2]
    refine ⟨he, ?_⟩
    show (match read_report ret buf with
      | .endOfStream => []
      | .shortReport => reports rest
      | .report r => r :: reports rest) = reports rest
    rw [he]
  · intro r h
    unfold read_report at h
    split_ifs at h with h0 h79
    cases h
    exact ⟨by omega, rfl⟩

/-- Witness for claim C4 at concrete inputs. -/
theorem read_report_stream_classification_witness :
    read_report 40 (fun _ => 0) = .shortReport ∧
    reports [(40, fun _ => 0), (0, fun _ => 0)] = [] := by
  have h := read_report_stream_classification 40 (fun _ => 0)
    [(0, fun _ => 0)]
  have h2 := h.2.1 (by decide) (by decide)
  exact ⟨h2.1, h2.2.trans rfl⟩

/-- Claim C5 (code_bug evaluation): the sweep removes elements from
`threads` while iterating over the same list, so the element after each
removed one is skipped.  With a dead dynamic worker followed by a dead
static worker and an empty queue, the sweep removes only the first: the
dead static worker stays in the active set, no (profile, sink) pair is
requeued, and the assignment step then synthesizes a dynamic profile.  A
lone dead static worker is reclaimed correctly (pair pushed to the front,
worker removed), and a requeued pair is handed out as static. -/
theorem main_sweep_skips_dead_static :
    sweepThreads [Worker.mk false true 1 1, Worker.mk false false 2 2] []
      = ([Worker.mk false false 2 2], []) ∧
    assignController [] = ((none, true), []) ∧
    sweepThreads [Worker.mk false false 2 2] [] = ([], [(2, 2)]) ∧
    assignController [(2, 2)] = ((some (2, 2), false), []) := by decide

/-- Claim C6: for every parameter assignment (byte-valued arguments),
`control` builds a 78-byte payload with 0x11 at offset 0, 0x80 at offset 1,
0xFF at offset 3, the rumble values at offsets 6–7, the LED RGB triple at
offsets 8–10, the flash durations at offsets 11–12 and zero everywhere
else, preceded by one transport-header byte; with all-zero parameters the
only non-zero payload bytes are the three header constants. -/
theorem control_pkt_layout (a : ControlArgs) (_h1 : a.big_rumble < 256)
    (_h2 : a.small_rumble < 256) (_h3 : a.led_red < 256)
    (_h4 : a.led_green < 256) (_h5 : a.led_blue < 256)
    (_h6 : a.flash_led1 < 256) (_h7 : a.flash_led2 < 256) :
    (control_pkt a).length = 78 ∧
    (control_pkt a).getD 0 0 = 0x11 ∧
    (control_pkt a).getD 1 0 = 0x80 ∧
    (control_pkt a).getD 3 0 = 0xFF ∧
    (control_pkt a).getD 6 0 = a.big_rumble ∧
    (control_pkt a).getD 7 0 = a.small_rumble ∧
    (control_pkt a).getD 8 0 = a.led_red ∧
    (control_pkt a).getD 9 0 = a.led_green ∧
    (control_pkt a).getD 10 0 = a.led_blue ∧
    (control_pkt a).getD 11 0 = a.flash_led1 ∧
    (control_pkt a).getD 12 0 = a.flash_led2 ∧
    (∀ i, i < 78 → i ≠ 0 → i ≠ 1 → i ≠ 3 → i ≠ 6 → i ≠ 7 → i ≠ 8 →
      i ≠ 9 → i ≠ 10 → i ≠ 11 → i ≠ 12 → (control_pkt a).getD i 0 = 0) ∧
    control_bytes a
      = (HIDP_TRANS_SET_REPORT ||| HIDP_DATA_RTYPE_OUTPUT) :: control_pkt a ∧
    (∀ i, i < 78 → i ≠ 0 → i ≠ 1 → i ≠ 3 →
      (control_pkt (ControlArgs.mk 0 0 0 0 0 0 0)).getD i 0 = 0) := by
  refine ⟨rfl, rfl, rfl, rfl, rfl, rfl, rfl, rfl, rfl, rfl, rfl, ?_, rfl,
    ?_⟩
  · intro i hi hn0 hn1 hn3 hn6 hn7 hn8 hn9 hn10 hn11 hn12
    rw [control_pkt_eq]
    interval_cases i <;> first | rfl | omega
  · intro i hi hn0 hn1 hn3
    rw [control_pkt_eq]
    interval_cases i <;> first | rfl | omega

/-- Witness for claim C6 at concrete inputs. -/
theorem control_pkt_layout_witness :
    (control_pkt (ControlArgs.mk 1 2 3 4 5 6 7)).getD 6 0 = 1 ∧
    (control_pkt (ControlArgs.mk 1 2 3 4 5 6 7)).getD 13 0 = 0 ∧
    (control_pkt (ControlArgs.mk 0 0 0 0 0 0 0)).getD 8 0 = 0 := by
  have h := control_pkt_layout (ControlArgs.mk 1 2 3 4 5 6 7) (by decide)
    (by decide) (by decide) (by decide) (by decide) (by decide) (by decide)
  obtain ⟨-, -, -, -, h6, -, -, -, -, -, -, hz, -, hz0⟩ := h
  exact ⟨h6,
    hz 13 (by decide) (by decide) (by decide) (by decide) (by decide)
      (by decide) (by decide) (by decide) (by decide) (by decide)
      (by decide),
    hz0 8 (by decide) (by decide) (by decide) (by decide)⟩

/-- Claim C7: the six motion/orientation fields are the signed
little-endian 16-bit decodings of their wire bytes, with the sign
inversion applied to exactly one orientation axis (roll); the signed
decoding round-trips every representable value (so wire bytes encoding -1
decode to -1), and on an all-0xFF buffer all six fields decode wire -1,
the inverted roll giving +1 and the other five giving -1. -/
theorem read_report_signed_fields :
    (∀ buf : Nat → Nat,
      (read_report_decode buf).motion_y = s16le (buf 16) (buf 17) ∧
      (read_report_decode buf).motion_x = s16le (buf 18) (buf 19) ∧
      (read_report_decode buf).motion_z = s16le (buf 20) (buf 21) ∧
      (read_report_decode buf).orientation_roll
        = -(s16le (buf 22) (buf 23)) ∧
      (read_report_decode buf).orientation_yaw = s16le (buf 24) (buf 25) ∧
      (read_report_decode buf).orientation_pitch
        = s16le (buf 26) (buf 27)) ∧
    (∀ w : Int, -32768 ≤ w → w < 32768 →
      s16le ((w % 65536).toNat % 256) ((w % 65536).toNat / 256) = w) ∧
    (s16le 255 255 = -1 ∧
     (read_report_decode (fun _ => 255)).motion_y = -1 ∧
     (read_report_decode (fun _ => 255)).motion_x = -1 ∧
     (read_report_decode (fun _ => 255)).motion_z = -1 ∧
     (read_report_decode (fun _ => 255)).orientation_roll = 1 ∧
     (read_report_decode (fun _ => 255)).orientation_yaw = -1 ∧
     (read_report_decode (fun _ => 255)).orientation_pitch = -1) := by
  refine ⟨?_, ?_, by decide, by decide, by decide, by decide, by decide,
    by decide, by decide⟩
  · intro buf
    refine ⟨?_, ?_, ?_, ?_, ?_, ?_⟩ <;> simp only [read_report_decode]
  · intro w hlo hhi
    simp only [s16le]
    split <;> omega

/-- Witness for claim C7: the two wire bytes of -12345 decode back to it. -/
theorem read_report_signed_fields_witness :
    s16le (((-12345 : Int) % 65536).toNat % 256)
      (((-12345 : Int) % 65536).toNat / 256) = -12345 :=
  read_report_signed_fields.2.1 (-12345) (by decide) (by decide)

/-- Claim C8: decoding a buffer holding a touch point packed per the
nibble-sharing scheme recovers the original 12-bit x and y exactly, the id
is the low 7 bits of the id byte, and the active flag is the negation of
its top bit. -/
theorem read_report_touch_roundtrip (idb x y : Nat) (hid : idb < 256)
    (hx : x < 4096) (hy : y < 4096) :
    (read_report_decode (packTouchBuf idb x y)).trackpad_touch0_x = x ∧
    (read_report_decode (packTouchBuf idb x y)).trackpad_touch0_y = y ∧
    (read_report_decode (packTouchBuf idb x y)).trackpad_touch0_id
      = idb % 128 ∧
    (read_report_decode (packTouchBuf idb x y)).trackpad_touch0_active
      = decide (idb / 128 = 0) := by
  refine ⟨?_, ?_, ?_, ?_⟩
  · show ((packTouchBuf idb x y 40 &&& 0x0f) <<< 8) ||| packTouchBuf idb x y 39
      = x
    show (((x / 256 + (y % 16) * 16) &&& 0x0f) <<< 8) ||| (x % 256) = x
    rw [nat_nibble_lor_low (x / 256) (by omega) (y % 16) (by omega)]
    rw [nat_shl8_lor (x / 256) (by omega) (x % 256) (by omega)]
    omega
  · show (packTouchBuf idb x y 41 <<< 4) |||
      ((packTouchBuf idb x y 40 &&& 0xf0) >>> 4) = y
    show ((y / 16) <<< 4) ||| (((x / 256 + (y % 16) * 16) &&& 0xf0) >>> 4)
      = y
    rw [nat_nibble_lor_high (x / 256) (by omega) (y % 16) (by omega)]
    rw [nat_shl4_lor (y / 16) (by omega) (y % 16) (by omega)]
    omega
  · show packTouchBuf idb x y 38 &&& 0x7f = idb % 128
    show idb &&& 0x7f = idb % 128
    exact nat_and_127 idb hid
  · show decide (packTouchBuf idb x y 38 >>> 7 = 0) = decide (idb / 128 = 0)
    show decide (idb >>> 7 = 0) = decide (idb / 128 = 0)
    exact nat_shr7_eq idb hid

/-- Witness for claim C8 at concrete inputs. -/
theorem read_report_touch_roundtrip_witness :
    (read_report_decode (packTouchBuf 200 2748 1234)).trackpad_touch0_x
      = 2748 ∧
    (read_report_decode (packTouchBuf 200 2748 1234)).trackpad_touch0_y
      = 1234 ∧
    (read_report_decode (packTouchBuf 200 2748 1234)).trackpad_touch0_id
      = 200 % 128 ∧
    (read_report_decode (packTouchBuf 200 2748 1234)).trackpad_touch0_active
      = decide (200 / 128 = 0) :=
  read_report_touch_roundtrip 200 2748 1234 (by decide) (by decide)
    (by decide)

/-- Claim C9 (counterexample): the all-0xFF buffer is a well-sized report
whose timestamp field decodes to 63, outside 0–15 — the field is 6 bits
wide, not 4. -/
theorem read_report_timestamp_counterexample :
    read_report 79 (fun _ => 255) = .report (read_report_decode (fun _ => 255)) ∧
    (read_report_decode (fun _ => 255)).timestamp = 63 ∧
    ¬ (read_report_decode (fun _ => 255)).timestamp ≤ 15 := by decide

/-- Claim C9 (amended): the timestamp/sequence field is the top six bits of
its byte (`buf[10] >> 2`), so for every well-sized buffer of bytes its
value lies in 0–63. -/
theorem read_report_timestamp_bound (buf : Nat → Nat) (h : buf 10 < 256) :
    (read_report_decode buf).timestamp = buf 10 >>> 2 ∧
    (read_report_decode buf).timestamp ≤ 63 := by
  refine ⟨rfl, ?_⟩
  show buf 10 >>> 2 ≤ 63
  rw [Nat.shiftRight_eq_div_pow]
  omega

/-- Witness for the amended claim C9 at a concrete input. -/
theorem read_report_timestamp_bound_witness :
    (read_report_decode (fun _ => 200)).timestamp ≤ 63 :=
  (read_report_timestamp_bound (fun _ => 200) (by decide)).2

/-- Claim C10: `control` performs exactly one send, of exactly 79 bytes,
whose leading transport byte is the constant
`HIDP_TRANS_SET_REPORT | HIDP_DATA_RTYPE_OUTPUT = 0x52`. -/
theorem control_send_shape (a : ControlArgs) (_h1 : a.big_rumble < 256)
    (_h2 : a.small_rumble < 256) (_h3 : a.led_red < 256)
    (_h4 : a.led_green < 256) (_h5 : a.led_blue < 256)
    (_h6 : a.flash_led1 < 256) (_h7 : a.flash_led2 < 256) :
    (control_sends a).length = 1 ∧
    control_sends a = [control_bytes a] ∧
    (control_bytes a).length = 79 ∧
    (control_bytes a).getD 0 0
      = (HIDP_TRANS_SET_REPORT ||| HIDP_DATA_RTYPE_OUTPUT) ∧
    HIDP_TRANS_SET_REPORT ||| HIDP_DATA_RTYPE_OUTPUT = 0x52 :=
  ⟨rfl, rfl, rfl, rfl, rfl⟩

/-- Witness for claim C10 at concrete inputs. -/
theorem control_send_shape_witness :
    (control_bytes (ControlArgs.mk 0 0 0 0 255 0 0)).length = 79 ∧
    (control_bytes (ControlArgs.mk 0 0 0 0 255 0 0)).getD 0 0 = 0x52 := by
  have h := control_send_shape (ControlArgs.mk 0 0 0 0 255 0 0) (by decide)
    (by decide) (by decide) (by decide) (by decide) (by decide) (by decide)
  exact ⟨h.2.2.1, h.2.2.2.1.trans h.2.2.2.2⟩

end Ds4drv
